import Mathlib

/-!
Verification of the in-memory book-catalog logic of this repository.

Three of the classroom exercises implement the same CRUD surface over a
process-wide mutable list; the definitions below are shallow embeddings of
those Python functions, translated statement by statement:

* `Books2.*` embeds `Project02/books2.py` (records with an integer id,
  id assignment via the last element, replace/delete by id);
* `P01.*` embeds `Project01/books.py` (dict records keyed by title/author/
  category, case-insensitive lookups, delete by title);
* `P1.*` embeds `project_1/books.py` (the earlier variant whose category
  query casefolds only the stored side).

Python's global `BOOKS` list becomes an explicit store argument threaded
through each operation; an endpoint that both mutates `BOOKS` and returns a
response becomes a function returning the new store paired with the
response.  Response payloads that matter to the claims are modelled as
inductive results (one constructor per distinct `return` in the source);
Python `None` returns become `Option.none`; a Python run-time crash
(`None + 1`) becomes `Option.none` of the whole operation.
-/

set_option autoImplicit false

/-- Python `str.casefold`.  Every string occurring in this repository is
ASCII, where casefolding coincides with ASCII lowercasing, so it is modelled
as character-wise `Char.toLower`. -/
def casefold (s : String) : String := ⟨s.data.map Char.toLower⟩

/-- One record of the dict-based catalogs of `Project01/books.py` and
`project_1/books.py`: a mapping with the keys `title`, `author`,
`category`. -/
structure BookRec where
  title : String
  author : String
  category : String
deriving DecidableEq, Repr

namespace Books2

/-- The `Book` class of `Project02/books2.py`: `id` is `Optional[int]`,
`rating` is a Python float, modelled as a rational number (every rating in
the source is a small decimal literal). -/
structure Book where
  id : Option Int
  title : String
  author : String
  description : String
  rating : ℚ
deriving DecidableEq, Repr

/-- The initial global `BOOKS` list of `Project02/books2.py`. -/
def BOOKS : List Book :=
  [ ⟨some 1, "Computer Science Pro", "codingwithroby", "A very nice book", 5⟩,
    ⟨some 2, "Be Fast with API", "codingwithroby", "A great book", 5⟩,
    ⟨some 3, "Master EndPoints", "codingwithroby", "A awesome book", 5⟩,
    ⟨some 4, "HP1", "Author 1", "Book Description", 2⟩,
    ⟨some 5, "HP2", "Author 2", "Book Description", 3⟩,
    ⟨some 6, "HP3", "Author 3", "Book Description", 1⟩ ]

/-- Result of `read_book`: either the first matching book, or the not-found
sentinel (the endpoint returns the constant string `Book not found`). -/
inductive ReadBookResult where
  | found (b : Book)
  | bookNotFound
deriving DecidableEq, Repr

/-- GET `/books/{book_id}` of `books2.py`: linear scan, first book whose
`id` equals `book_id` (a `None` id never equals an int), else the
not-found sentinel. -/
def read_book (book_id : Int) : List Book → ReadBookResult
  | [] => .bookNotFound
  | b :: bs =>
    if b.id = some book_id then .found b else read_book book_id bs

/-- The helper `find_book_id` of `books2.py`:
`book.id = 1 if len(BOOKS) == 0 else BOOKS[-1].id + 1`.
When the store is nonempty but the last book's id is Python `None`,
`None + 1` raises `TypeError`; that crash is modelled as `none`. -/
def find_book_id (book : Book) (books : List Book) : Option Book :=
  match books.getLast? with
  | none => some { book with id := some 1 }
  | some last =>
    match last.id with
    | none => none
    | some i => some { book with id := some (i + 1) }

/-- POST `/create_book` of `books2.py`: build the new book from the request,
assign its id with `find_book_id`, append it at the end of `BOOKS`. -/
def create_book (book_request : Book) (books : List Book) : Option (List Book) :=
  (find_book_id book_request books).map (fun b => books ++ [b])

/-- The success messages returned by the mutating endpoints of `books2.py`
(`Book with id .. updated successfully` / `.. deleted successfully`),
modelled as constructors carrying the interpolated id. -/
inductive Books2Msg where
  | updatedSuccessfully (id : Option Int)
  | deletedSuccessfully (id : Int)
deriving DecidableEq, Repr

/-- PUT `/books/update_book` of `books2.py`: scan `BOOKS` by index; at the
first book whose id equals the request's id, overwrite that position with
the request and return the success message; if no book matches, the loop
falls through and the endpoint returns Python `None` (no message). -/
def update_book (book : Book) : List Book → List Book × Option Books2Msg
  | [] => ([], none)
  | b :: bs =>
    if b.id = book.id then
      (book :: bs, some (.updatedSuccessfully book.id))
    else
      let r := update_book book bs
      (b :: r.1, r.2)

/-- DELETE `/books/{book_id}` of `books2.py`: scan `BOOKS` by index; delete
the first book whose id equals `book_id` and return the success message;
if no book matches, the loop falls through and the endpoint returns Python
`None` (no message). -/
def delete_book (book_id : Int) : List Book → List Book × Option Books2Msg
  | [] => ([], none)
  | b :: bs =>
    if b.id = some book_id then
      (bs, some (.deletedSuccessfully book_id))
    else
      let r := delete_book book_id bs
      (b :: r.1, r.2)

/-- Strict order on optional ids: both present and the first smaller. -/
def idLtB : Option Int → Option Int → Bool
  | some x, some y => decide (x < y)
  | _, _ => false

/-- Validity of a list of ids: all present and strictly increasing along
the list.  This holds of the initial `BOOKS` (ids 1..6 in order) and is the
invariant the store's operations preserve. -/
def ValidIds (ids : List (Option Int)) : Prop :=
  (∀ o ∈ ids, o.isSome = true) ∧ ids.Pairwise (fun a b => idLtB a b = true)

instance (ids : List (Option Int)) : Decidable (ValidIds ids) :=
  inferInstanceAs (Decidable (_ ∧ _))

/-- A valid store: its ids are all present and strictly increasing in
insertion order. -/
def StoreValid (books : List Book) : Prop :=
  ValidIds (books.map (·.id))

instance (books : List Book) : Decidable (StoreValid books) :=
  inferInstanceAs (Decidable (ValidIds _))

/-- One mutating operation of the `books2.py` store. -/
inductive Op where
  | insert (r : Book)
  | replace (r : Book)
  | delete (i : Int)

/-- Apply one operation to the store (`none` models the Python crash of
`find_book_id` on a `None` last id; replace and delete never crash). -/
def applyOp : Op → List Book → Option (List Book)
  | .insert r, books => create_book r books
  | .replace r, books => some (update_book r books).1
  | .delete i, books => some (delete_book i books).1

/-- Apply a sequence of operations from left to right. -/
def applyOps : List Op → List Book → Option (List Book)
  | [], books => some books
  | op :: ops, books => (applyOp op books).bind (applyOps ops)

/-- The id sequence `[some 1, …, some k]` that `k` inserts into an empty
store are expected to assign. -/
def seqIds (k : Nat) : List (Option Int) :=
  (List.range k).map (fun n => some (Int.ofNat n + 1))

end Books2

namespace P01

/-- The initial global `BOOKS` list of `Project01/books.py`. -/
def BOOKS : List BookRec :=
  [ ⟨"Title One", "Author One", "science"⟩,
    ⟨"Title Two", "Author Two", "science"⟩,
    ⟨"Title Three", "Author Three", "history"⟩,
    ⟨"Title Four", "Author Four", "math"⟩,
    ⟨"Title Five", "Author Five", "math"⟩,
    ⟨"Title Six", "Author Six", "science"⟩ ]

/-- Result of GET `/books/author/{book_author}`: the nonempty list of
matches, or the message `No books found by {author_name}` (the query string
is interpolated into the message, hence the constructor argument). -/
inductive AuthorBooksResult where
  | found (books : List BookRec)
  | messageNoBooks (author_name : String)
deriving DecidableEq, Repr

/-- GET `/books/author/{book_author}` of `Project01/books.py`: filter by
casefolded author equality (both sides casefolded); return the list if
nonempty, else the message. -/
def get_author_books (author_name : String) (books : List BookRec) :
    AuthorBooksResult :=
  let author_books :=
    books.filter (fun b => casefold b.author == casefold author_name)
  if author_books = [] then .messageNoBooks author_name
  else .found author_books

/-- The records carried by an `AuthorBooksResult` (empty for the message
branch): the sequence of records the lookup found. -/
def authorRecords : AuthorBooksResult → List BookRec
  | .found l => l
  | .messageNoBooks _ => []

/-- The response of DELETE `/books/delete_book/{book_title}` of
`Project01/books.py`: both the match branch and the fall-through return
the same `Book .. deleted successfully` message built from the query
title. -/
inductive P01DeleteMsg where
  | deletedSuccessfully (book_title : String)
deriving DecidableEq, Repr

/-- DELETE `/books/delete_book/{book_title}` of `Project01/books.py`:
remove the first book whose casefolded title equals the casefolded query
and return the success message; when nothing matches, fall through to the
final `return` with the very same success message. -/
def delete_book (book_title : String) : List BookRec → List BookRec × P01DeleteMsg
  | [] => ([], .deletedSuccessfully book_title)
  | b :: bs =>
    if casefold b.title = casefold book_title then
      (bs, .deletedSuccessfully book_title)
    else
      let r := delete_book book_title bs
      (b :: r.1, r.2)

end P01

namespace P1

/-- The initial global `BOOKS` list of `project_1/books.py`. -/
def BOOKS : List BookRec :=
  [ ⟨"Title One", "Author One", "science"⟩,
    ⟨"Title Two", "Author Two", "science"⟩,
    ⟨"Title Three", "Author three", "history"⟩,
    ⟨"Title Four", "Author Four", "math"⟩,
    ⟨"Title Five", "Author Five", "math"⟩,
    ⟨"Title Six", "Author Two", "math"⟩ ]

/-- Result of GET `/books/{book_title}`: the first matching book, or the
constant `Failed: Title not Found` dict. -/
inductive TitleResult where
  | found (b : BookRec)
  | titleNotFound
deriving DecidableEq, Repr

/-- GET `/books/{book_title}` of `project_1/books.py`: first book with a
truthy (nonempty) title whose casefolded title equals the casefolded
query; else the not-found dict. -/
def read_book_by_title (book_title : String) : List BookRec → TitleResult
  | [] => .titleNotFound
  | b :: bs =>
    if b.title ≠ "" ∧ casefold b.title = casefold book_title then .found b
    else read_book_by_title book_title bs

/-- Result of GET `/books/` (category query) of `project_1/books.py`: the
nonempty match list, the `Error: The category is required.` dict (returned
mid-loop on a falsy category), or the `Not Found: No book were found.`
dict. -/
inductive CategoryResult where
  | found (l : List BookRec)
  | errorCategoryRequired
  | notFoundNoBooks
deriving DecidableEq, Repr

/-- The loop of `read_category_query`: walk `BOOKS`, returning `none` as
soon as a book's category is falsy (the mid-loop error return, which
discards the accumulated list), else collect the books whose CASEFOLDED
stored category equals the RAW query (`category.casefold() ==
book_category` — the query side is not casefolded in the source). -/
def read_category_loop (book_category : String) : List BookRec → Option (List BookRec)
  | [] => some []
  | b :: bs =>
    if b.category = "" then none
    else
      (read_category_loop book_category bs).map
        (fun l =>
          if casefold b.category = book_category then b :: l else l)

/-- GET `/books/` of `project_1/books.py`: dispatch the loop's outcome to
the three returns of the endpoint. -/
def read_category_query (book_category : String) (books : List BookRec) :
    CategoryResult :=
  match read_category_loop book_category books with
  | none => .errorCategoryRequired
  | some [] => .notFoundNoBooks
  | some l => .found l

/-- The mid-loop error response of PUT `/books/update_book` of
`project_1/books.py` (`Error: Title not found`, returned when a stored
title or the update's title is falsy).  A normal loop completion returns
Python `None`, modelled as `Option.none`. -/
inductive P1UpdateMsg where
  | errorTitleNotFound
deriving DecidableEq, Repr

/-- PUT `/books/update_book` of `project_1/books.py`: walk `BOOKS` by
index; on a falsy stored title or falsy update title, return the error
immediately (keeping the replacements already made); otherwise overwrite
every position whose casefolded title matches (no early exit after a
replacement) and finally return `None`. -/
def update_book (update_bk : BookRec) : List BookRec → List BookRec × Option P1UpdateMsg
  | [] => ([], none)
  | b :: bs =>
    if b.title = "" ∨ update_bk.title = "" then
      (b :: bs, some .errorTitleNotFound)
    else
      let b2 := if casefold b.title = casefold update_bk.title then update_bk else b
      let r := update_book update_bk bs
      (b2 :: r.1, r.2)

end P1

/-!  Helper lemmas. -/

namespace Books2

theorem read_book_append (i : Int) (l2 : List Book) :
    ∀ l1 : List Book, (∀ b ∈ l1, b.id ≠ some i) →
      read_book i (l1 ++ l2) = read_book i l2
  | [], _ => rfl
  | b :: bs, h => by
    have hb : ¬ b.id = some i := h b (by simp)
    simp only [List.cons_append, read_book, if_neg hb]
    exact read_book_append i l2 bs (fun x hx => h x (by simp [hx]))

theorem read_book_eq_notFound (i : Int) :
    ∀ books : List Book, (∀ b ∈ books, b.id ≠ some i) →
      read_book i books = .bookNotFound
  | [], _ => rfl
  | b :: bs, h => by
    have hb : ¬ b.id = some i := h b (by simp)
    simp only [read_book, if_neg hb]
    exact read_book_eq_notFound i bs (fun x hx => h x (by simp [hx]))

theorem delete_book_sublist (i : Int) :
    ∀ books : List Book, (delete_book i books).1.Sublist books
  | [] => List.Sublist.refl _
  | b :: bs => by
    by_cases hb : b.id = some i
    · simp only [delete_book, if_pos hb]
      exact List.sublist_cons_self b bs
    · simpa [delete_book, hb] using (delete_book_sublist i bs).cons₂ b

theorem update_book_map_id (r : Book) :
    ∀ books : List Book, (update_book r books).1.map (·.id) = books.map (·.id)
  | [] => rfl
  | b :: bs => by
    by_cases hb : b.id = r.id
    · simp [update_book, hb]
    · simp [update_book, hb, update_book_map_id r bs]

theorem update_book_no_match (r : Book) :
    ∀ books : List Book, (∀ b ∈ books, b.id ≠ r.id) →
      update_book r books = (books, none)
  | [], _ => rfl
  | b :: bs, h => by
    have hb : ¬ b.id = r.id := h b (by simp)
    simp only [update_book, if_neg hb, update_book_no_match r bs
      (fun x hx => h x (by simp [hx]))]

theorem getLast?_mem' {α : Type} {a : α} :
    ∀ {l : List α}, l.getLast? = some a → a ∈ l
  | [x], h => by simp at h; simp [h]
  | x :: y :: t, h => by
    rw [List.getLast?_cons_cons] at h
    exact List.mem_cons_of_mem x (getLast?_mem' h)

theorem idLtB_mono {a : Option Int} {m : Int}
    (h : idLtB a (some m) = true) : idLtB a (some (m + 1)) = true := by
  cases a with
  | none => simp [idLtB] at h
  | some u =>
    simp only [idLtB, decide_eq_true_eq] at h ⊢
    omega

theorem idLtB_ne {a b : Option Int} (h : idLtB a b = true) : a ≠ b := by
  cases a <;> cases b <;> simp_all [idLtB]
  omega

theorem pairwise_lt_last {m : Int} :
    ∀ {ids : List (Option Int)},
      ids.Pairwise (fun a b => idLtB a b = true) →
      ids.getLast? = some (some m) →
      ∀ a ∈ ids, idLtB a (some (m + 1)) = true
  | [], _, hl => by simp at hl
  | [x], _, hl => by
    simp at hl
    intro a ha
    simp at ha
    subst ha; subst hl
    simp [idLtB]
  | x :: y :: t, hp, hl => by
    rw [List.getLast?_cons_cons] at hl
    intro a ha
    rcases List.mem_cons.1 ha with rfl | hmem
    · have hlast : (some m) ∈ y :: t := getLast?_mem' hl
      exact idLtB_mono ((List.pairwise_cons.1 hp).1 _ hlast)
    · exact pairwise_lt_last (List.pairwise_cons.1 hp).2 hl a hmem

theorem validIds_sublist {l1 l2 : List (Option Int)}
    (hs : l1.Sublist l2) (h : ValidIds l2) : ValidIds l1 :=
  ⟨fun o ho => h.1 o (hs.subset ho), h.2.sublist hs⟩

theorem validIds_append_last {ids : List (Option Int)} {m : Int}
    (h : ValidIds ids) (hl : ids.getLast? = some (some m)) :
    ValidIds (ids ++ [some (m + 1)]) := by
  refine ⟨?_, ?_⟩
  · intro o ho
    rcases List.mem_append.1 ho with h1 | h2
    · exact h.1 o h1
    · simp at h2; subst h2; rfl
  · rw [List.pairwise_append]
    refine ⟨h.2, List.pairwise_singleton _ _, ?_⟩
    intro a ha b hb
    simp at hb; subst hb
    exact pairwise_lt_last h.2 hl a ha

theorem validIds_nodup {ids : List (Option Int)} (h : ValidIds ids) :
    ids.Nodup :=
  h.2.imp (fun hab => idLtB_ne hab)

theorem create_book_last {books : List Book} {last : Book} {m : Int} (r : Book)
    (hl : books.getLast? = some last) (hm : last.id = some m) :
    create_book r books = some (books ++ [{ r with id := some (m + 1) }]) := by
  simp [create_book, find_book_id, hl, hm]

end Books2

namespace Books2

theorem create_book_empty (r : Book) :
    create_book r [] = some [{ r with id := some 1 }] := rfl

theorem create_book_valid {books : List Book} (r : Book) (h : StoreValid books) :
    ∃ out, create_book r books = some out ∧ StoreValid out := by
  match hb : books.getLast? with
  | none =>
    rw [List.getLast?_eq_none_iff] at hb
    subst hb
    refine ⟨[{ r with id := some 1 }], rfl, ⟨?_, ?_⟩⟩
    · intro o ho
      simp at ho
      simp [ho]
    · simp
  | some last =>
    have hmem : last ∈ books := getLast?_mem' hb
    have hsome : last.id.isSome = true :=
      h.1 last.id (List.mem_map.2 ⟨last, hmem, rfl⟩)
    rcases Option.isSome_iff_exists.1 hsome with ⟨m, hm⟩
    refine ⟨books ++ [{ r with id := some (m + 1) }],
      create_book_last r hb hm, ?_⟩
    unfold StoreValid
    rw [List.map_append]
    exact validIds_append_last h (by rw [List.getLast?_map, hb, Option.map_some', hm])

theorem applyOp_valid (op : Op) {books : List Book} (h : StoreValid books) :
    ∃ out, applyOp op books = some out ∧ StoreValid out := by
  cases op with
  | insert r => exact create_book_valid r h
  | replace r =>
    refine ⟨(update_book r books).1, rfl, ?_⟩
    unfold StoreValid
    rw [update_book_map_id]
    exact h
  | delete i =>
    refine ⟨(delete_book i books).1, rfl, ?_⟩
    exact validIds_sublist ((delete_book_sublist i books).map (·.id)) h

theorem applyOps_valid :
    ∀ (ops : List Op) (books : List Book), StoreValid books →
      ∃ out, applyOps ops books = some out ∧ StoreValid out
  | [], books, h => ⟨books, rfl, h⟩
  | op :: ops, books, h => by
    rcases applyOp_valid op h with ⟨mid, hmid, hv⟩
    rcases applyOps_valid ops mid hv with ⟨out, hout, hv2⟩
    exact ⟨out, by simp [applyOps, hmid, hout], hv2⟩

theorem seqIds_succ (k : Nat) :
    seqIds (k + 1) = seqIds k ++ [some (Int.ofNat k + 1)] := by
  unfold seqIds
  rw [List.range_succ, List.map_append]
  rfl

theorem seqIds_getLast (k : Nat) :
    (seqIds (k + 1)).getLast? = some (some (Int.ofNat k + 1)) := by
  rw [seqIds_succ, List.getLast?_append_of_ne_nil _ (by simp)]
  rfl

theorem insert_seq_ids :
    ∀ (rs : List Book) (books : List Book) (k : Nat),
      books.map (·.id) = seqIds k →
      ∃ out, applyOps (rs.map .insert) books = some out ∧
        out.map (·.id) = seqIds (k + rs.length)
  | [], books, k, h => ⟨books, rfl, by simpa using h⟩
  | r :: rs, books, k, h => by
    match k with
    | 0 =>
      have hb : books = [] := by
        have h0 : books.map (fun b => b.id) = [] := by simpa [seqIds] using h
        simpa using h0
      subst hb
      have h1 : ([{ r with id := some 1 }] : List Book).map (fun b => b.id) =
          seqIds 1 := by
        simp [seqIds, List.range_succ]
      rcases insert_seq_ids rs [{ r with id := some 1 }] 1 h1 with ⟨out, hout, hids⟩
      refine ⟨out, ?_, ?_⟩
      · simpa [applyOps, applyOp, create_book_empty] using hout
      · rw [hids]
        congr 1
        simp only [List.length_cons]
        omega
    | j + 1 =>
      have hlast : (books.map (fun b => b.id)).getLast? =
          some (some (Int.ofNat j + 1)) := by
        rw [h]; exact seqIds_getLast j
      rw [List.getLast?_map] at hlast
      rcases Option.map_eq_some'.1 hlast with ⟨last, hl, hlid⟩
      have hcreate := create_book_last (m := Int.ofNat j + 1) r hl hlid
      have h2 : List.map (fun b : Book => b.id)
          (books ++ [{ r with id := some (Int.ofNat j + 1 + 1) }]) =
          seqIds (j + 2) := by
        rw [List.map_append, h, seqIds_succ (j + 1)]
        simp only [List.map_cons, List.map_nil]
        rfl
      rcases insert_seq_ids rs _ (j + 2) h2 with ⟨out, hout, hids⟩
      refine ⟨out, ?_, ?_⟩
      · simpa [applyOps, applyOp, hcreate] using hout
      · rw [hids]
        congr 1
        simp only [List.length_cons]
        omega

end Books2

namespace P01

theorem get_author_books_filter_congr {q1 q2 : String}
    (h : casefold q1 = casefold q2) (books : List BookRec) :
    authorRecords (get_author_books q1 books) =
      authorRecords (get_author_books q2 books) := by
  unfold get_author_books
  rw [h]
  by_cases he : List.filter (fun b => casefold b.author == casefold q2) books = [] <;>
    simp [he, authorRecords]

theorem delete_book_msg (t : String) :
    ∀ books : List BookRec, (delete_book t books).2 = .deletedSuccessfully t
  | [] => rfl
  | b :: bs => by
    by_cases hb : casefold b.title = casefold t
    · simp [delete_book, hb]
    · simp [delete_book, hb, delete_book_msg t bs]

theorem delete_book_no_match (t : String) :
    ∀ books : List BookRec, (∀ b ∈ books, casefold b.title ≠ casefold t) →
      (delete_book t books).1 = books
  | [], _ => rfl
  | b :: bs, h => by
    have hb : ¬ casefold b.title = casefold t := h b (by simp)
    simp [delete_book, hb,
      delete_book_no_match t bs (fun x hx => h x (by simp [hx]))]

end P01

namespace P1

theorem read_book_by_title_congr {q1 q2 : String}
    (h : casefold q1 = casefold q2) :
    ∀ books : List BookRec,
      read_book_by_title q1 books = read_book_by_title q2 books
  | [] => rfl
  | b :: bs => by
    simp only [read_book_by_title, h, read_book_by_title_congr h bs]

theorem update_book_unmatched_noop (u : BookRec) (hu : u.title ≠ "") :
    ∀ books : List BookRec,
      (∀ b ∈ books, b.title ≠ "" ∧ casefold b.title ≠ casefold u.title) →
      update_book u books = (books, none)
  | [], _ => rfl
  | b :: bs, h => by
    have hb := h b (by simp)
    simp [update_book, hb.1, hu, hb.2,
      update_book_unmatched_noop u hu bs (fun x hx => h x (by simp [hx]))]

end P1

/-!  Claims. -/

/-- C1: for every store state, Insert (`create_book` of `Project02/books2.py`)
assigns the new record the id 1 when the store is empty, and otherwise the
current last record's id plus one, and appends the new record at the end of
the collection. -/
theorem claim_C1_insert_assigns_last_id_plus_one (r : Books2.Book)
    (books : List Books2.Book) :
    (books = [] →
      Books2.create_book r books = some [{ r with id := some 1 }]) ∧
    (∀ last m, books.getLast? = some last → last.id = some m →
      Books2.create_book r books =
        some (books ++ [{ r with id := some (m + 1) }])) := by
  constructor
  · rintro rfl
    exact Books2.create_book_empty r
  · intro last m hl hm
    exact Books2.create_book_last r hl hm

/-- Witness for C1: inserting into the empty store assigns id 1; inserting
into the initial six-book store assigns id 7 and appends at the end. -/
theorem claim_C1_insert_assigns_last_id_plus_one_witness :
    Books2.create_book ⟨none, "New Book", "New Author", "Nice", 4⟩ [] =
      some [⟨some 1, "New Book", "New Author", "Nice", 4⟩] ∧
    Books2.create_book ⟨none, "New Book", "New Author", "Nice", 4⟩ Books2.BOOKS =
      some (Books2.BOOKS ++ [⟨some 7, "New Book", "New Author", "Nice", 4⟩]) := by
  constructor
  · exact (claim_C1_insert_assigns_last_id_plus_one _ []).1 rfl
  · exact (claim_C1_insert_assigns_last_id_plus_one _ Books2.BOOKS).2
      ⟨some 6, "HP3", "Author 3", "Book Description", 1⟩ 6 (by decide) rfl

/-- C2 counterexample: the claim quantifies over EVERY store state, but in
the store `[record with id 2, record with id 1]` the insert is assigned
`lastId + 1 = 2`, which collides with the existing first record, so the
immediate `FindById 2` (`read_book`) returns the old record, not the one
the insert returned. -/
theorem claim_C2_insert_then_find_counterexample :
    Books2.find_book_id ⟨none, "New", "NA", "ND", 1⟩
        [⟨some 2, "X", "XA", "XD", 1⟩, ⟨some 1, "Y", "YA", "YD", 1⟩] =
      some ⟨some 2, "New", "NA", "ND", 1⟩ ∧
    Books2.create_book ⟨none, "New", "NA", "ND", 1⟩
        [⟨some 2, "X", "XA", "XD", 1⟩, ⟨some 1, "Y", "YA", "YD", 1⟩] =
      some [⟨some 2, "X", "XA", "XD", 1⟩, ⟨some 1, "Y", "YA", "YD", 1⟩,
        ⟨some 2, "New", "NA", "ND", 1⟩] ∧
    Books2.read_book 2
        [⟨some 2, "X", "XA", "XD", 1⟩, ⟨some 1, "Y", "YA", "YD", 1⟩,
         ⟨some 2, "New", "NA", "ND", 1⟩] =
      .found ⟨some 2, "X", "XA", "XD", 1⟩ ∧
    Books2.ReadBookResult.found ⟨some 2, "X", "XA", "XD", 1⟩ ≠
      .found ⟨some 2, "New", "NA", "ND", 1⟩ :=
  ⟨by decide, by decide, by decide, by decide⟩

/-- C2 (amended): for every store state in which no existing record already
carries the id the insert will assign, and every record `r` without an id,
if Insert(r) returns `r1` then FindById of `r1`'s id immediately afterwards
returns `r1` itself. -/
theorem claim_C2_insert_then_find (books : List Books2.Book)
    (r r1 : Books2.Book) (i : Int) (_hr : r.id = none)
    (hfind : Books2.find_book_id r books = some r1) (hid : r1.id = some i)
    (hfresh : ∀ b ∈ books, b.id ≠ some i) :
    Books2.create_book r books = some (books ++ [r1]) ∧
    Books2.read_book i (books ++ [r1]) = .found r1 := by
  refine ⟨by simp [Books2.create_book, hfind], ?_⟩
  rw [Books2.read_book_append i [r1] books hfresh]
  simp [Books2.read_book, hid]

/-- Witness for C2 on the initial store: the insert is assigned id 7, and
`read_book 7` finds exactly the inserted record. -/
theorem claim_C2_insert_then_find_witness :
    Books2.create_book ⟨none, "New Book", "New Author", "Nice", 4⟩ Books2.BOOKS =
      some (Books2.BOOKS ++ [⟨some 7, "New Book", "New Author", "Nice", 4⟩]) ∧
    Books2.read_book 7
        (Books2.BOOKS ++ [⟨some 7, "New Book", "New Author", "Nice", 4⟩]) =
      .found ⟨some 7, "New Book", "New Author", "Nice", 4⟩ :=
  claim_C2_insert_then_find Books2.BOOKS _ _ 7 rfl (by decide) rfl (by decide)

/-- C3: starting from the empty store, a sequence of `n` inserts with no
interleaved deletes succeeds and assigns exactly the ids `1 .. n`, in
insertion order. -/
theorem claim_C3_fresh_store_ids_one_to_n (rs : List Books2.Book) :
    ∃ out, Books2.applyOps (rs.map .insert) [] = some out ∧
      out.map (fun b => b.id) = Books2.seqIds rs.length := by
  rcases Books2.insert_seq_ids rs [] 0 (by simp [Books2.seqIds]) with
    ⟨out, hout, hids⟩
  exact ⟨out, hout, by simpa using hids⟩

/-- C4: starting from a valid store (ids all present and strictly increasing
in insertion order, as in the initial store), every sequence of insert,
replace-by-id and delete-by-id operations succeeds, keeps the store valid,
and hence no two records ever share an id; moreover replace-by-id never
changes any stored id (the id sequence of the store is unchanged), so a
record's id is never changed after assignment. -/
theorem claim_C4_ids_unique_and_immutable :
    (∀ (ops : List Books2.Op) (books : List Books2.Book),
       Books2.StoreValid books →
       ∃ out, Books2.applyOps ops books = some out ∧
         Books2.StoreValid out ∧ (out.map (fun b => b.id)).Nodup) ∧
    (∀ (r : Books2.Book) (books : List Books2.Book),
       ((Books2.update_book r books).1.map (fun b => b.id)) =
         books.map (fun b => b.id)) := by
  constructor
  · intro ops books h
    rcases Books2.applyOps_valid ops books h with ⟨out, hout, hv⟩
    exact ⟨out, hout, hv, Books2.validIds_nodup hv⟩
  · intro r books
    exact Books2.update_book_map_id r books

/-- Witness for C4: the initial store is valid, and a concrete
insert/delete/replace sequence on it keeps ids nodup. -/
theorem claim_C4_ids_unique_and_immutable_witness :
    Books2.StoreValid Books2.BOOKS ∧
    (∃ out,
      Books2.applyOps
        [.insert ⟨none, "New", "NA", "ND", 1⟩, .delete 3,
         .replace ⟨some 2, "T2", "A2", "D2", 2⟩] Books2.BOOKS = some out ∧
      Books2.StoreValid out ∧ (out.map (fun b => b.id)).Nodup) :=
  ⟨by decide, claim_C4_ids_unique_and_immutable.1 _ Books2.BOOKS (by decide)⟩

/-- C5 counterexample: the category query of `project_1/books.py` casefolds
only the stored side (`category.casefold() == book_category`), so the two
queries `MATH` and `math`, which differ only in letter case, get different
results on the initial store. -/
theorem claim_C5_counterexample :
    casefold "MATH" = casefold "math" ∧
    P1.read_category_query "MATH" P1.BOOKS ≠
      P1.read_category_query "math" P1.BOOKS :=
  ⟨by decide, by decide⟩

/-- C5 (amended): the lookups that casefold both sides — title lookup and
author lookup — return the same records for queries that differ only in
letter case; the `project_1` category query casefolds only the stored
value, so it is excluded.  The title example of the claim holds (see the
witness). -/
theorem claim_C5_casefolded_lookups_query_case_invariant
    (books : List BookRec) (q1 q2 : String) (h : casefold q1 = casefold q2) :
    P1.read_book_by_title q1 books = P1.read_book_by_title q2 books ∧
    P01.authorRecords (P01.get_author_books q1 books) =
      P01.authorRecords (P01.get_author_books q2 books) :=
  ⟨P1.read_book_by_title_congr h books,
   P01.get_author_books_filter_congr h books⟩

/-- Witness for C5: `TITLE ONE` and `title one` give the same result, namely
the record whose title is `Title One`. -/
theorem claim_C5_casefolded_lookups_query_case_invariant_witness :
    casefold "TITLE ONE" = casefold "title one" ∧
    P1.read_book_by_title "TITLE ONE" P1.BOOKS =
      P1.read_book_by_title "title one" P1.BOOKS ∧
    P1.read_book_by_title "title one" P1.BOOKS =
      .found ⟨"Title One", "Author One", "science"⟩ :=
  ⟨by decide,
   (claim_C5_casefolded_lookups_query_case_invariant P1.BOOKS _ _ (by decide)).1,
   by decide⟩

/-- C6: for every store and every integer id carried by no record, FindById
(`read_book` of `books2.py`) returns the not-found outcome — the single
constant sentinel of the endpoint (the string `Book not found`), never a
crash and never a book. -/
theorem claim_C6_find_missing_id_is_not_found (book_id : Int)
    (books : List Books2.Book) (h : ∀ b ∈ books, b.id ≠ some book_id) :
    Books2.read_book book_id books = .bookNotFound :=
  Books2.read_book_eq_notFound book_id books h

/-- Witness for C6: id 42 is absent from the initial store. -/
theorem claim_C6_find_missing_id_is_not_found_witness :
    Books2.read_book 42 Books2.BOOKS = .bookNotFound :=
  claim_C6_find_missing_id_is_not_found 42 Books2.BOOKS (by decide)

/-- C7: replacing id 2 in a store `[A(id 1), B(id 2), C(id 3)]` overwrites
the record in place: the result is `[A, B2, C]` with all other records and
their order unchanged, and the replaced record not moved to the end. -/
theorem claim_C7_replace_preserves_position (A B C B2 : Books2.Book)
    (hA : A.id = some 1) (hB : B.id = some 2) (_hC : C.id = some 3)
    (hB2 : B2.id = some 2) :
    Books2.update_book B2 [A, B, C] =
      ([A, B2, C], some (.updatedSuccessfully (some 2))) := by
  simp [Books2.update_book, hA, hB, hB2]

/-- Witness for C7 at a concrete three-book store. -/
theorem claim_C7_replace_preserves_position_witness :
    Books2.update_book ⟨some 2, "B2", "B2A", "B2D", 2⟩
        [⟨some 1, "A", "AA", "AD", 1⟩, ⟨some 2, "B", "BA", "BD", 1⟩,
         ⟨some 3, "C", "CA", "CD", 1⟩] =
      ([⟨some 1, "A", "AA", "AD", 1⟩, ⟨some 2, "B2", "B2A", "B2D", 2⟩,
        ⟨some 3, "C", "CA", "CD", 1⟩],
       some (.updatedSuccessfully (some 2))) :=
  claim_C7_replace_preserves_position _ _ _ _ rfl rfl rfl rfl

/-- C8 counterexample: replacing a missing id (99) leaves the store
unchanged, but produces NO failure result: the loop of `update_book` falls
through and the endpoint returns Python `None` (message `none` here), not a
NotFound error — the claim's `fails with NotFound` is false. -/
theorem claim_C8_counterexample :
    Books2.update_book ⟨some 99, "R", "RA", "RD", 1⟩
        [⟨some 1, "A", "AA", "AD", 1⟩] =
      ([⟨some 1, "A", "AA", "AD", 1⟩], (none : Option Books2.Books2Msg)) := by
  decide

/-- C8 (amended): replace on an id carried by no record leaves the store
unchanged and silently no-ops — it returns no message at all (Python
`None`) rather than failing with NotFound; likewise the title-keyed
`update_book` of `project_1/books.py` on a store with no matching
(nonempty) title. -/
theorem claim_C8_replace_missing_id_silently_noops :
    (∀ (r : Books2.Book) (books : List Books2.Book),
       (∀ b ∈ books, b.id ≠ r.id) →
       Books2.update_book r books = (books, none)) ∧
    (∀ (u : BookRec) (books : List BookRec), u.title ≠ "" →
       (∀ b ∈ books, b.title ≠ "" ∧ casefold b.title ≠ casefold u.title) →
       P1.update_book u books = (books, none)) := by
  constructor
  · intro r books h
    exact Books2.update_book_no_match r books h
  · intro u books hu h
    exact P1.update_book_unmatched_noop u hu books h

/-- Witness for C8 on both initial stores. -/
theorem claim_C8_replace_missing_id_silently_noops_witness :
    Books2.update_book ⟨some 99, "R", "RA", "RD", 1⟩ Books2.BOOKS =
      (Books2.BOOKS, none) ∧
    P1.update_book ⟨"Ghost Title", "GA", "GC"⟩ P1.BOOKS = (P1.BOOKS, none) :=
  ⟨claim_C8_replace_missing_id_silently_noops.1 _ Books2.BOOKS (by decide),
   claim_C8_replace_missing_id_silently_noops.2 _ P1.BOOKS (by decide) (by decide)⟩

/-- C9 counterexample: after deleting id 2 from `[1,2,3]`, a second
`delete_book 2` leaves the store unchanged and produces NO failure result:
it returns Python `None` (message `none`), not a NotFound error — the
claim's `fails with NotFound` for the second delete is false. -/
theorem claim_C9_counterexample :
    Books2.delete_book 2
        [⟨some 1, "A", "AA", "AD", 1⟩, ⟨some 2, "B", "BA", "BD", 1⟩,
         ⟨some 3, "C", "CA", "CD", 1⟩] =
      ([⟨some 1, "A", "AA", "AD", 1⟩, ⟨some 3, "C", "CA", "CD", 1⟩],
       some (.deletedSuccessfully 2)) ∧
    Books2.delete_book 2
        [⟨some 1, "A", "AA", "AD", 1⟩, ⟨some 3, "C", "CA", "CD", 1⟩] =
      ([⟨some 1, "A", "AA", "AD", 1⟩, ⟨some 3, "C", "CA", "CD", 1⟩],
       (none : Option Books2.Books2Msg)) :=
  ⟨by decide, by decide⟩

/-- C9 (amended): deleting id 2 from a store with ids `[1,2,3]` succeeds
and leaves the records with ids `[1,3]` in order; an immediate second
delete of id 2 removes nothing and returns no message (silent no-op, not a
NotFound failure). -/
theorem claim_C9_delete_removes_exactly_one (b1 b2 b3 : Books2.Book)
    (h1 : b1.id = some 1) (h2 : b2.id = some 2) (h3 : b3.id = some 3) :
    Books2.delete_book 2 [b1, b2, b3] =
      ([b1, b3], some (.deletedSuccessfully 2)) ∧
    Books2.delete_book 2 [b1, b3] = ([b1, b3], none) := by
  constructor
  · simp [Books2.delete_book, h1, h2]
  · simp [Books2.delete_book, h1, h3]

/-- Witness for C9 at a concrete three-book store. -/
theorem claim_C9_delete_removes_exactly_one_witness :
    Books2.delete_book 2
        [⟨some 1, "E", "EA", "ED", 1⟩, ⟨some 2, "F", "FA", "FD", 1⟩,
         ⟨some 3, "G", "GA", "GD", 1⟩] =
      ([⟨some 1, "E", "EA", "ED", 1⟩, ⟨some 3, "G", "GA", "GD", 1⟩],
       some (.deletedSuccessfully 2)) ∧
    Books2.delete_book 2
        [⟨some 1, "E", "EA", "ED", 1⟩, ⟨some 3, "G", "GA", "GD", 1⟩] =
      ([⟨some 1, "E", "EA", "ED", 1⟩, ⟨some 3, "G", "GA", "GD", 1⟩], none) :=
  claim_C9_delete_removes_exactly_one _ _ _ rfl rfl rfl

/-- C10: the Project01 delete-by-title endpoint returns the identical
success message whether or not a book with that title existed: both the
match branch and the fall-through return `Book .. deleted successfully`,
and when nothing matches the store is left unchanged while success is still
reported. -/
theorem claim_C10_delete_by_title_always_reports_success :
    (∀ (book_title : String) (books : List BookRec),
       (P01.delete_book book_title books).2 =
         .deletedSuccessfully book_title) ∧
    (∀ (book_title : String) (books : List BookRec),
       (∀ b ∈ books, casefold b.title ≠ casefold book_title) →
       (P01.delete_book book_title books).1 = books) := by
  constructor
  · intro t books
    exact P01.delete_book_msg t books
  · intro t books h
    exact P01.delete_book_no_match t books h

/-- Witness for C10: deleting an absent title still reports success and
removes nothing. -/
theorem claim_C10_delete_by_title_always_reports_success_witness :
    (P01.delete_book "No Such Book" P01.BOOKS).2 =
      .deletedSuccessfully "No Such Book" ∧
    (P01.delete_book "No Such Book" P01.BOOKS).1 = P01.BOOKS :=
  ⟨claim_C10_delete_by_title_always_reports_success.1 _ P01.BOOKS,
   claim_C10_delete_by_title_always_reports_success.2 _ P01.BOOKS (by decide)⟩
